import Mathlib

/-!
Shallow embedding of `stock_price_predictor/data_processing.py`
(class `StockDataProcessor`): the fetch / transform / save operations and the
`run_pipeline` orchestrator, together with proofs of the specification's
claims about them.

Conventions of the embedding:
* pandas `NaN` cells are modelled as `none : Option ℚ`; numeric cells as `ℚ`.
* A dataframe's `Close` column is a `List ℚ` (one entry per row, in order).
* `Series.rolling(window=w)` with the default `min_periods = w` yields a
  defined value at position `i` exactly when the window `[i+1-w, i]` holds
  `w` non-`NaN` observations; otherwise `NaN`.
* `Series.std` uses the sample variance (`ddof = 1`).  The model stores the
  sample variance itself (`var20`): the square root the code takes preserves
  definedness (the variance is non-negative), and no claim compares the
  numeric value of the volatility, only whether it is defined.
-/

/-- A cell of a raw dataframe column: pandas holds either a numeric value or a
non-numeric object (for instance a string), which makes the rolling
computations raise. -/
inductive Cell where
  | num (q : ℚ)
  | txt (s : List Char)
deriving DecidableEq, Repr

/-- Whether a raw cell is numeric. -/
def Cell.isNum : Cell → Bool
  | .num _ => true
  | .txt _ => false

/-- The numeric value of a cell (meaningful only under `Cell.isNum`). -/
def Cell.val : Cell → ℚ
  | .num q => q
  | .txt _ => 0

/-- `xs.rolling(window=w).mean()` at row `i` (source line
`processed_data['Close'].rolling(window=5).mean()` and the `window=20`
variant): the mean of the trailing `w` values, `NaN` (`none`) while fewer
than `w` rows exist. -/
def rollingMeanAt (w : ℕ) (xs : List ℚ) (i : ℕ) : Option ℚ :=
  if w ≤ i + 1 then some (((xs.drop (i + 1 - w)).take w).sum / (w : ℚ)) else none

/-- `xs.pct_change()` at row `i` (source line
`processed_data['Close'].pct_change()`): `(xs[i] - xs[i-1]) / xs[i-1]`,
`NaN` (`none`) at the first row. -/
def pctChangeAt (xs : List ℚ) (i : ℕ) : Option ℚ :=
  if i = 0 then none else some ((xs.getD i 0 - xs.getD (i - 1) 0) / xs.getD (i - 1) 0)

/-- The whole `Daily_Return` column derived from the `Close` column. -/
def dailyReturns (xs : List ℚ) : List (Option ℚ) :=
  (List.range xs.length).map (pctChangeAt xs)

/-- `vs.rolling(window=w).std()` at row `i`, squared (source line
`processed_data['Daily_Return'].rolling(window=20).std()`): pandas needs
`min_periods = w` non-`NaN` observations in the trailing window, so the
result is defined exactly when the window is full and free of `NaN`; the
value carried is the sample variance (`ddof = 1`), of which the code's
volatility is the square root. -/
def rollingVarAt (w : ℕ) (vs : List (Option ℚ)) (i : ℕ) : Option ℚ :=
  let window := (vs.drop (i + 1 - w)).take w
  if w ≤ i + 1 ∧ window.all Option.isSome = true then
    let vals := window.reduceOption
    let m := vals.sum / (w : ℚ)
    some ((vals.map (fun v => (v - m) * (v - m))).sum / ((w : ℚ) - 1))
  else none

/-- One row of the frame `process_data` builds before `dropna`: the original
`Close` value plus the four derived columns, each possibly `NaN`. -/
structure EnrichedRow where
  close : ℚ
  ma5 : Option ℚ
  ma20 : Option ℚ
  dailyReturn : Option ℚ
  /-- The square of the `Volatility` column (see `rollingVarAt`). -/
  var20 : Option ℚ
deriving DecidableEq, Repr

/-- Row `i` of the enriched frame, before `dropna`. -/
def enrichAt (closes : List ℚ) (i : ℕ) : EnrichedRow :=
  { close := closes.getD i 0
    ma5 := rollingMeanAt 5 closes i
    ma20 := rollingMeanAt 20 closes i
    dailyReturn := pctChangeAt closes i
    var20 := rollingVarAt 20 (dailyReturns closes) i }

/-- The rows `dropna` keeps: every derived column defined (`close` itself is
numeric by construction, so only the derived columns can be `NaN`). -/
def keepRow (r : EnrichedRow) : Bool :=
  r.ma5.isSome && r.ma20.isSome && r.dailyReturn.isSome && r.var20.isSome

/-- `StockDataProcessor.process_data` on the `Close` column of a frame whose
cells are all numeric: add `MA5`, `MA20`, `Daily_Return`, `Volatility`
(carried squared) and drop every row with a `NaN` (`dropna`). -/
def process_data (closes : List ℚ) : List EnrichedRow :=
  ((List.range closes.length).map (enrichAt closes)).filter keepRow

/-- A raw dataframe as `process_data` receives it: the five numeric columns
of the data model, each a list of cells any of which may hold a non-numeric
object; the `Close` column may also be missing entirely (`none`), the
malformed-input case. -/
structure RawFrame where
  open_ : List Cell
  high : List Cell
  low : List Cell
  close? : Option (List Cell)
  volume : List Cell
deriving DecidableEq, Repr

/-- `StockDataProcessor.process_data` on a raw frame that may be malformed:
`data['Close']` raises `KeyError` when the column is missing, and the rolling
computations raise when that column holds a non-numeric cell; the
`try/except` re-raises either as the method's failure.  The method reads no
other column — `.copy()` and `dropna()` tolerate non-numeric cells — so the
contents of `open_`, `high`, `low` and `volume` never make it raise. -/
def process_data_checked (raw : RawFrame) :
    Except String (List EnrichedRow) :=
  match raw.close? with
  | none => .error "ProcessingError: KeyError Close"
  | some cells =>
    if cells.all Cell.isNum then .ok (process_data (cells.map Cell.val))
    else .error "ProcessingError: non-numeric data"

/-- The 25-day scenario input of the spec: closes `100, 101, ..., 124`. -/
def closes25 : List ℚ :=
  [100, 101, 102, 103, 104, 105, 106, 107, 108, 109, 110, 111, 112,
    113, 114, 115, 116, 117, 118, 119, 120, 121, 122, 123, 124]

/-! ## Fetching (`StockDataProcessor.fetch_stock_data`) -/

/-- The level of a log record; the model keeps levels only, the message text
carries no information a claim depends on. -/
inductive LogLevel where
  | info
  | warning
  | error
deriving DecidableEq, Repr

/-- One row as `yfinance`'s `stock.history(...)` returns it: the date index
(kept as its rendered text) and the `Open, High, Low, Close, Volume`
columns. -/
structure HistRow where
  date : List Char
  open_ : ℚ
  high : ℚ
  low : ℚ
  close : ℚ
  volume : ℚ
deriving DecidableEq, Repr

/-- The dataframe `fetch_stock_data` returns: the history rows plus the
`AnalystTargetPrice` column, which the code only ever sets to one scalar
broadcast over every row (`hist_data['AnalystTargetPrice'] = target_data`),
so the model carries it as a frame-level optional scalar (`none` = column
absent). -/
structure Frame where
  rows : List HistRow
  analystTarget : Option ℚ
deriving DecidableEq, Repr

/-- The provider's responses for one fetch call: what `stock.history(...)`
and `stock.info.get('targetMeanPrice', None)` produce (`Except.error` = the
call raised). -/
structure Provider where
  history : Except String (List HistRow)
  infoTarget : Except String (Option ℚ)

/-- Python truthiness of the looked-up target (`if target_data:`): `None`,
`0` and `0.0` are falsy. -/
def truthy : Option ℚ → Bool
  | none => false
  | some q => decide (q ≠ 0)

/-- `StockDataProcessor.fetch_stock_data`: log the fetch (info), run the
history request — a raise is logged (error) and re-raised by the outer
`try/except` — then try the analyst-target lookup: a raise there is caught,
logged as a warning and swallowed; a truthy value is broadcast as the
`AnalystTargetPrice` column, a falsy one leaves the frame unchanged. -/
def fetch_stock_data (p : Provider) (ticker : String) (daysBack : ℕ) :
    Except String Frame × List LogLevel :=
  match p.history with
  | .error e => (.error e, [.info, .error])
  | .ok hist =>
    match p.infoTarget with
    | .ok t => (.ok ⟨hist, if truthy t then t else none⟩, [.info])
    | .error _ => (.ok ⟨hist, none⟩, [.info, .warning])

/-! ## Persisting (`StockDataProcessor.__init__` and `save_data`) -/

/-- A filesystem path, as its list of components from the root. -/
abbrev DirPath := List String

/-- `Path.mkdir(exist_ok=True)` — note: without `parents=True` — over a
model filesystem that is the list of existing directories: succeed when the
directory exists already, create it when its parent exists, raise
(`FileNotFoundError`) when the parent is missing.  Missing parents are not
created. -/
def mkdir_exist_ok (dirs : List DirPath) (p : DirPath) : Except Unit (List DirPath) :=
  if p ∈ dirs then .ok dirs
  else if p.dropLast ∈ dirs then .ok (p :: dirs)
  else .error ()

/-- The model filesystem: the directories that exist and the files written
(path and content; a later entry for the same path is shadowed). -/
structure FS where
  dirs : List DirPath
  files : List (DirPath × List Char)
deriving DecidableEq, Repr

/-- `StockDataProcessor.__init__`'s filesystem effect:
`self.data_dir.mkdir(exist_ok=True)`. -/
def processor_init (fs : FS) (dataDir : DirPath) : Except Unit FS :=
  match mkdir_exist_ok fs.dirs dataDir with
  | .ok dirs => .ok { fs with dirs := dirs }
  | .error e => .error e

/-- Join fields with a separator character (the writing half of the
comma/newline structure of `DataFrame.to_csv`). -/
def joinSep (sep : Char) : List (List Char) → List Char
  | [] => []
  | [f] => f
  | f :: g :: fs => f ++ sep :: joinSep sep (g :: fs)

/-- Split a character list at every occurrence of the separator (the reading
half: how a consumer parses the written file back). -/
def splitSep (sep : Char) : List Char → List (List Char)
  | [] => [[]]
  | c :: cs =>
    match splitSep sep cs with
    | [] => [[]]
    | f :: fs => if c = sep then [] :: f :: fs else (c :: f) :: fs

/-- The header fields `to_csv` writes: the index name `Date`, the history
columns, and `AnalystTargetPrice` exactly when that column is present. -/
def headerFields (f : Frame) : List (List Char) :=
  ["Date".toList, "Open".toList, "High".toList, "Low".toList,
    "Close".toList, "Volume".toList] ++
    (match f.analystTarget with
      | some _ => ["AnalystTargetPrice".toList]
      | none => [])

/-- The fields of one data row: the date index first, then the numeric cells
rendered by `render` (pandas' float formatting, kept abstract), then the
broadcast target when the column is present. -/
def rowFields (render : ℚ → List Char) (tgt : Option ℚ) (r : HistRow) :
    List (List Char) :=
  [r.date, render r.open_, render r.high, render r.low, render r.close,
    render r.volume] ++
    (match tgt with
      | some t => [render t]
      | none => [])

/-- The table `to_csv` serializes: header row then one row of fields per
observation. -/
def csvTable (render : ℚ → List Char) (f : Frame) : List (List (List Char)) :=
  headerFields f :: f.rows.map (rowFields render f.analystTarget)

/-- `data.to_csv(filename)`'s file content: each row's fields joined by
commas, the lines joined by newlines. -/
def to_csv (render : ℚ → List Char) (f : Frame) : List Char :=
  joinSep '\n' ((csvTable render f).map (joinSep ','))

/-- Reading a written CSV file back: split into lines, split each line into
fields. -/
def parse_csv (s : List Char) : List (List (List Char)) :=
  (splitSep '\n' s).map (splitSep ',')

/-- `StockDataProcessor.save_data`: write
`{data_dir}/{ticker}_stock_data.csv` (overwriting any previous file at that
path) and log the save; when the directory is missing the write raises,
which the method logs (error) and re-raises. -/
def save_data (render : ℚ → List Char) (fs : FS) (dataDir : DirPath)
    (f : Frame) (ticker : String) : Except String FS × List LogLevel :=
  let path := dataDir ++ [ticker ++ "_stock_data.csv"]
  if dataDir ∈ fs.dirs then
    (.ok { fs with
            files := (path, to_csv render f) ::
              fs.files.filter (fun e => decide (e.1 ≠ path)) },
      [.info])
  else (.error "PersistenceError", [.error])

/-! ## The pipeline (`StockDataProcessor.run_pipeline`) -/

/-- The operations the pipeline invokes, with the frame each was given;
`processCall` would be `process_data`, whose invocation the source leaves
commented out. -/
inductive PipeEvent where
  | fetchCall
  | processCall (input : Frame)
  | saveCall (f : Frame)
deriving DecidableEq, Repr

/-- `StockDataProcessor.run_pipeline`: fetch, save the raw frame, return the
raw frame; the `process_data` step is commented out in the source, so no
`processCall` event is ever emitted.  Any failure is logged (error) and
re-raised.  The second and third components are the log levels emitted and
the trace of operations invoked. -/
def run_pipeline (render : ℚ → List Char) (p : Provider) (fs : FS)
    (dataDir : DirPath) (ticker : String) (daysBack : ℕ) :
    Except String (Frame × FS) × List LogLevel × List PipeEvent :=
  match fetch_stock_data p ticker daysBack with
  | (.error e, lg) => (.error e, lg ++ [.error], [.fetchCall])
  | (.ok raw, lg) =>
    match save_data render fs dataDir raw ticker with
    | (.error e, lg2) => (.error e, lg ++ lg2 ++ [.error],
        [.fetchCall, .saveCall raw])
    | (.ok fs2, lg2) => (.ok (raw, fs2), lg ++ lg2,
        [.fetchCall, .saveCall raw])

/-! ## Concrete scenario data (used by counterexamples and witnesses) -/

/-- A sample trading-day observation. -/
def histRow1 : HistRow :=
  { date := "2024-01-02".toList, open_ := 10, high := 12, low := 9,
    close := 11, volume := 1000 }

/-- A provider whose analyst-target lookup succeeds but finds no
`targetMeanPrice` (`stock.info.get` returns `None`). -/
def providerNoneTarget : Provider :=
  { history := .ok [histRow1], infoTarget := .ok none }

/-- A provider whose analyst-target lookup raises. -/
def providerRaiseTarget : Provider :=
  { history := .ok [histRow1], infoTarget := .error "HTTPError" }

/-- A provider whose analyst-target lookup returns a truthy target. -/
def providerTgt : Provider :=
  { history := .ok [histRow1], infoTarget := .ok (some 5) }

/-- A provider with no data for the symbol/period: zero history rows. -/
def providerEmpty : Provider :=
  { history := .ok [], infoTarget := .ok none }

/-- A filesystem holding only the root directory. -/
def fs0 : FS := { dirs := [[]], files := [] }

/-- A sample float renderer for concrete instantiations: any function
`ℚ → List Char` whose output avoids the separators works for the round-trip
theorem. -/
def renderConst : ℚ → List Char := fun _ => ['0']

/-- A sample one-row frame without the analyst-target column. -/
def frame1 : Frame := { rows := [histRow1], analystTarget := none }

/-- A one-row raw frame whose `Open` cell is non-numeric while `Close` is
present and numeric. -/
def rawFrameBadOpen : RawFrame :=
  { open_ := [Cell.txt "N/A".toList], high := [Cell.num 12],
    low := [Cell.num 9], close? := some [Cell.num 11],
    volume := [Cell.num 1000] }

/-- A raw frame with zero rows: every column present and empty. -/
def emptyRawFrame : RawFrame :=
  { open_ := [], high := [], low := [], close? := some [], volume := [] }

/-! ## Claims about the Transformer -/

set_option maxRecDepth 10000

/-- C2: every row `transform` returns has all four derived fields defined —
rows lacking full window history are dropped, not zero-filled — and an input
of fewer than 20 rows yields an empty output. -/
theorem transform_rows_defined_short_input_empty (closes : List ℚ) :
    (∀ r ∈ process_data closes,
      r.ma5.isSome = true ∧ r.ma20.isSome = true ∧
        r.dailyReturn.isSome = true ∧ r.var20.isSome = true) ∧
    (closes.length < 20 → process_data closes = []) := by
  constructor
  · intro r hr
    have hk : keepRow r = true := (List.mem_filter.mp hr).2
    simpa [keepRow, Bool.and_eq_true, and_assoc] using hk
  · intro hlen
    unfold process_data
    apply List.filter_eq_nil_iff.mpr
    intro r hr
    obtain ⟨i, hi, rfl⟩ := List.mem_map.mp hr
    have hi2 : i < closes.length := List.mem_range.mp hi
    have h20 : ¬ (20 ≤ i + 1) := by omega
    simp [keepRow, enrichAt, rollingMeanAt, h20]

/-- C2 witness: a three-row series is below the window length and transforms
to the empty output. -/
theorem transform_rows_defined_short_input_empty_witness :
    process_data [(1 : ℚ), 2, 3] = [] :=
  (transform_rows_defined_short_input_empty [(1 : ℚ), 2, 3]).2 (by norm_num)

/-- C3 counterexample: on the 25-day strictly-increasing scenario the output
has 5 rows, not the claimed `25 - 19 = 6`: the `Volatility` window needs 20
defined daily returns and the first return is undefined, so the first
surviving row is index 20. -/
theorem transform_25day_not_six_rows : (process_data closes25).length ≠ 6 := by
  have h : (process_data closes25).length = 5 := rfl
  omega

/-- C3 (amended): on the 25-day scenario `transform` returns exactly
`25 - 20 = 5` rows, namely the last 5 rows of the input. -/
theorem transform_25day_five_rows :
    (process_data closes25).length = 5 ∧
    (process_data closes25).map EnrichedRow.close = closes25.drop 20 :=
  ⟨rfl, rfl⟩

/-- C4 counterexample: on the 25-day scenario `daily_return` is not constant
across the output rows (`close` rises by a fixed difference, not a fixed
ratio): the first two output rows carry `1/119` and `1/120`. -/
theorem transform_25day_return_not_constant :
    ¬ ∀ r1 ∈ process_data closes25, ∀ r2 ∈ process_data closes25,
        r1.dailyReturn = r2.dailyReturn := by
  intro h
  have hl : process_data closes25 =
      [enrichAt closes25 20, enrichAt closes25 21, enrichAt closes25 22,
        enrichAt closes25 23, enrichAt closes25 24] := rfl
  have h1 : enrichAt closes25 20 ∈ process_data closes25 := by rw [hl]; simp
  have h2 : enrichAt closes25 21 ∈ process_data closes25 := by rw [hl]; simp
  have hv : pctChangeAt closes25 20 = pctChangeAt closes25 21 := h _ h1 _ h2
  norm_num [pctChangeAt, closes25] at hv

/-- C4 (amended): on the 25-day scenario the output's `daily_return` column is
`1/119, ..., 1/123` — strictly decreasing, not constant — while `ma5` and
`ma20` are both strictly increasing. -/
theorem transform_25day_monotone_indicators :
    (process_data closes25).map EnrichedRow.dailyReturn =
      [some (1/119), some (1/120), some (1/121), some (1/122), some (1/123)] ∧
    (process_data closes25).map EnrichedRow.ma5 =
      [some 118, some 119, some 120, some 121, some 122] ∧
    (process_data closes25).map EnrichedRow.ma20 =
      [some (221/2), some (223/2), some (225/2), some (227/2), some (229/2)] ∧
    List.Chain' (· > ·)
      (((process_data closes25).map EnrichedRow.dailyReturn).reduceOption) ∧
    List.Chain' (· < ·)
      (((process_data closes25).map EnrichedRow.ma5).reduceOption) ∧
    List.Chain' (· < ·)
      (((process_data closes25).map EnrichedRow.ma20).reduceOption) := by
  have hdr : (process_data closes25).map EnrichedRow.dailyReturn =
      [some (1/119), some (1/120), some (1/121), some (1/122), some (1/123)] := by
    have h : (process_data closes25).map EnrichedRow.dailyReturn =
        [pctChangeAt closes25 20, pctChangeAt closes25 21, pctChangeAt closes25 22,
          pctChangeAt closes25 23, pctChangeAt closes25 24] := rfl
    rw [h]; norm_num [pctChangeAt, closes25]
  have hma5 : (process_data closes25).map EnrichedRow.ma5 =
      [some 118, some 119, some 120, some 121, some 122] := by
    have h : (process_data closes25).map EnrichedRow.ma5 =
        [rollingMeanAt 5 closes25 20, rollingMeanAt 5 closes25 21,
          rollingMeanAt 5 closes25 22, rollingMeanAt 5 closes25 23,
          rollingMeanAt 5 closes25 24] := rfl
    rw [h]; norm_num [rollingMeanAt, closes25]
  have hma20 : (process_data closes25).map EnrichedRow.ma20 =
      [some (221/2), some (223/2), some (225/2), some (227/2), some (229/2)] := by
    have h : (process_data closes25).map EnrichedRow.ma20 =
        [rollingMeanAt 20 closes25 20, rollingMeanAt 20 closes25 21,
          rollingMeanAt 20 closes25 22, rollingMeanAt 20 closes25 23,
          rollingMeanAt 20 closes25 24] := rfl
    rw [h]; norm_num [rollingMeanAt, closes25]
  refine ⟨hdr, hma5, hma20, ?_, ?_, ?_⟩
  · rw [hdr]; norm_num [List.reduceOption_cons_of_some, List.chain'_cons]
  · rw [hma5]; norm_num [List.reduceOption_cons_of_some, List.chain'_cons]
  · rw [hma20]; norm_num [List.reduceOption_cons_of_some, List.chain'_cons]

/-- C5 counterexample: a frame whose required numeric `Open` column holds a
non-numeric cell — which the claim says must raise `ProcessingError` — is
processed without error: `process_data` reads only `data['Close']`, and
`.copy()`/`dropna()` tolerate the stray cell. -/
theorem transform_tolerates_nonnumeric_open :
    process_data_checked rawFrameBadOpen = .ok [] ∧
    rawFrameBadOpen.open_.all Cell.isNum = false :=
  ⟨rfl, rfl⟩

/-- C5 (amended): `transform` fails exactly when the `Close` column is
missing or holds a non-numeric cell; a non-numeric value in any of the other
numeric columns does not make it fail, and on every input whose `Close`
column is present and numeric it succeeds (returning the processed rows). -/
theorem transform_error_iff_close_malformed (raw : RawFrame) :
    ((∃ e, process_data_checked raw = .error e) ↔
      raw.close? = none ∨
        ∃ cells, raw.close? = some cells ∧ cells.all Cell.isNum = false) ∧
    (∀ cells, raw.close? = some cells → cells.all Cell.isNum = true →
      process_data_checked raw = .ok (process_data (cells.map Cell.val))) := by
  constructor
  · rcases raw with ⟨o, hi, lo, close?, v⟩
    cases close? with
    | none => simp [process_data_checked]
    | some cells =>
      by_cases h : cells.all Cell.isNum = true
      · simp [process_data_checked, h]
        simpa using h
      · simp only [Bool.not_eq_true] at h
        simp [process_data_checked, h]
        simpa using h
  · intro cells hc hnum
    simp [process_data_checked, hc, hnum]

/-! ## Claims about the Fetcher and the pipeline -/

/-- C1: the default pipeline fetches, passes the raw fetched frame — not the
enriched one — to save, returns that raw frame, and never invokes the
transform step (its call is commented out in the source). -/
theorem run_pipeline_raw_only (render : ℚ → List Char) (p : Provider) (fs : FS)
    (dataDir : DirPath) (ticker : String) (daysBack : ℕ) (raw : Frame)
    (lg : List LogLevel)
    (hf : fetch_stock_data p ticker daysBack = (.ok raw, lg)) :
    (run_pipeline render p fs dataDir ticker daysBack).2.2 =
      [PipeEvent.fetchCall, PipeEvent.saveCall raw] ∧
    (∀ g, PipeEvent.processCall g ∉
      (run_pipeline render p fs dataDir ticker daysBack).2.2) ∧
    (∀ raw2 fs2,
      (run_pipeline render p fs dataDir ticker daysBack).1 = .ok (raw2, fs2) →
        raw2 = raw) := by
  unfold run_pipeline
  rw [hf]
  dsimp only
  rcases hs : save_data render fs dataDir raw ticker with ⟨sres, lg2⟩
  cases sres with
  | error e =>
    refine ⟨rfl, ?_, ?_⟩
    · intro g; simp
    · intro raw2 fs2 h; simp at h
  | ok fs3 =>
    refine ⟨rfl, ?_, ?_⟩
    · intro g; simp
    · intro raw2 fs2 h
      simp only [Except.ok.injEq, Prod.mk.injEq] at h
      exact h.1.symm

/-- C1 witness: the pipeline run at a concrete provider. -/
theorem run_pipeline_raw_only_witness :
    (run_pipeline renderConst providerTgt fs0 [] "AAPL" 18).2.2 =
      [PipeEvent.fetchCall, PipeEvent.saveCall ⟨[histRow1], some 5⟩] ∧
    (∀ g, PipeEvent.processCall g ∉
      (run_pipeline renderConst providerTgt fs0 [] "AAPL" 18).2.2) ∧
    (∀ raw2 fs2,
      (run_pipeline renderConst providerTgt fs0 [] "AAPL" 18).1 = .ok (raw2, fs2) →
        raw2 = ⟨[histRow1], some 5⟩) :=
  run_pipeline_raw_only renderConst providerTgt fs0 [] "AAPL" 18
    ⟨[histRow1], some 5⟩ [.info] rfl

/-- C6 counterexample: when the analyst-target lookup succeeds but finds
nothing (`stock.info.get` returns `None`), fetch succeeds and omits the
field, but — contrary to the claim — no warning is logged: the code only
warns when the lookup raises. -/
theorem fetch_none_target_no_warning :
    (fetch_stock_data providerNoneTarget "AAPL" 18).1 = .ok ⟨[histRow1], none⟩ ∧
    LogLevel.warning ∉ (fetch_stock_data providerNoneTarget "AAPL" 18).2 :=
  ⟨rfl, by decide⟩

/-- C6 (amended): when the analyst-target lookup raises, fetch still succeeds,
returns the complete price series without the `AnalystTargetPrice` field,
logs a warning and does not propagate the failure; when the lookup merely
returns nothing, fetch likewise succeeds without the field, but no warning is
logged. -/
theorem fetch_target_failure_swallowed (p : Provider) (ticker : String)
    (daysBack : ℕ) (hist : List HistRow) (hh : p.history = .ok hist) :
    (∀ e, p.infoTarget = .error e →
      fetch_stock_data p ticker daysBack =
        (.ok ⟨hist, none⟩, [.info, .warning])) ∧
    (p.infoTarget = .ok none →
      fetch_stock_data p ticker daysBack = (.ok ⟨hist, none⟩, [.info])) := by
  constructor
  · intro e he
    simp [fetch_stock_data, hh, he]
  · intro ht
    simp [fetch_stock_data, hh, ht, truthy]

/-- C6 witness: the amended behavior at a provider whose lookup raises. -/
theorem fetch_target_failure_swallowed_witness :
    (∀ e, providerRaiseTarget.infoTarget = .error e →
      fetch_stock_data providerRaiseTarget "AAPL" 18 =
        (.ok ⟨[histRow1], none⟩, [.info, .warning])) ∧
    (providerRaiseTarget.infoTarget = .ok none →
      fetch_stock_data providerRaiseTarget "AAPL" 18 =
        (.ok ⟨[histRow1], none⟩, [.info])) :=
  fetch_target_failure_swallowed providerRaiseTarget "AAPL" 18 [histRow1] rfl

/-- C7: a provider with zero rows makes fetch return an empty series without
raising, and transform on an empty series returns an empty series without
raising. -/
theorem fetch_empty_transform_empty (p : Provider) (ticker : String)
    (daysBack : ℕ) (hh : p.history = .ok []) :
    (∃ tgt, (fetch_stock_data p ticker daysBack).1 = .ok ⟨[], tgt⟩) ∧
    process_data [] = [] ∧
    process_data_checked emptyRawFrame = .ok [] := by
  refine ⟨?_, rfl, rfl⟩
  cases ht : p.infoTarget with
  | error e => exact ⟨none, by simp [fetch_stock_data, hh, ht]⟩
  | ok t =>
    exact ⟨if truthy t then t else none, by simp [fetch_stock_data, hh, ht]⟩

/-- C7 witness: a delisted ticker's provider returning zero rows. -/
theorem fetch_empty_transform_empty_witness :
    (∃ tgt, (fetch_stock_data providerEmpty "DEAD" 30).1 = .ok ⟨[], tgt⟩) ∧
    process_data [] = [] ∧
    process_data_checked emptyRawFrame = .ok [] :=
  fetch_empty_transform_empty providerEmpty "DEAD" 30 rfl

/-- C10: when the analyst-target lookup succeeds, a falsy `targetMeanPrice`
(`None` or `0`) leaves the `AnalystTargetPrice` column absent, and a truthy
one is attached, broadcast identically to every row (the frame-level scalar
of `Frame.analystTarget`). -/
theorem fetch_target_truthiness (p : Provider) (ticker : String)
    (daysBack : ℕ) (hist : List HistRow) (t : Option ℚ)
    (hh : p.history = .ok hist) (ht : p.infoTarget = .ok t) :
    ((t = none ∨ t = some 0) →
      (fetch_stock_data p ticker daysBack).1 = .ok ⟨hist, none⟩) ∧
    (∀ q : ℚ, t = some q → q ≠ 0 →
      (fetch_stock_data p ticker daysBack).1 = .ok ⟨hist, some q⟩) := by
  constructor
  · rintro (rfl | rfl) <;> simp [fetch_stock_data, hh, ht, truthy]
  · rintro q rfl hq
    simp [fetch_stock_data, hh, ht, truthy, hq]

/-- C10 witness: a truthy target of 5 is broadcast; the falsy branch's
hypotheses are dischargeable at `none` via `providerNoneTarget`. -/
theorem fetch_target_truthiness_witness :
    (((some (5 : ℚ)) = none ∨ (some (5 : ℚ)) = some 0) →
      (fetch_stock_data providerTgt "AAPL" 18).1 = .ok ⟨[histRow1], none⟩) ∧
    (∀ q : ℚ, (some (5 : ℚ)) = some q → q ≠ 0 →
      (fetch_stock_data providerTgt "AAPL" 18).1 = .ok ⟨[histRow1], some q⟩) :=
  fetch_target_truthiness providerTgt "AAPL" 18 [histRow1] (some 5) rfl rfl

/-! ## Claims about the Persister -/

/-- C8 counterexample: with only the root directory present, creating the
two-component destination `stock/data` fails — `mkdir` is called without
`parents=True`, so the missing parent `stock` is not created — and a save
into that directory also fails rather than writing the file. -/
theorem init_missing_parent_fails :
    processor_init fs0 ["stock", "data"] = .error () ∧
    (save_data renderConst fs0 ["stock", "data"] ⟨[], none⟩ "AAPL").1 =
      .error "PersistenceError" := by
  constructor <;> rfl

/-- Helper: a save into an existing directory succeeds and the written file
is in the resulting filesystem. -/
theorem save_data_ok (render : ℚ → List Char) (fs : FS) (dataDir : DirPath)
    (f : Frame) (ticker : String) (h : dataDir ∈ fs.dirs) :
    ∃ fs3, (save_data render fs dataDir f ticker).1 = .ok fs3 ∧
      (dataDir ++ [ticker ++ "_stock_data.csv"], to_csv render f) ∈
        fs3.files := by
  refine ⟨⟨fs.dirs,
      (dataDir ++ [ticker ++ "_stock_data.csv"], to_csv render f) ::
        fs.files.filter
          (fun e => decide (e.1 ≠ dataDir ++ [ticker ++ "_stock_data.csv"]))⟩,
    ?_, ?_⟩
  · simp [save_data, h]
  · simp

/-- C8 (amended): the destination directory is created by the processor's
constructor, not by save, and only when its immediate parent exists: then the
directory exists afterwards (created if absent) and a save writes the file;
missing parents are never created (see the counterexample). -/
theorem mkdir_then_save_succeeds (fs : FS) (dataDir : DirPath)
    (render : ℚ → List Char) (f : Frame) (ticker : String)
    (hp : dataDir.dropLast ∈ fs.dirs) :
    ∃ fs2, processor_init fs dataDir = .ok fs2 ∧ dataDir ∈ fs2.dirs ∧
      ∃ fs3, (save_data render fs2 dataDir f ticker).1 = .ok fs3 ∧
        (dataDir ++ [ticker ++ "_stock_data.csv"], to_csv render f) ∈
          fs3.files := by
  by_cases hmem : dataDir ∈ fs.dirs
  · refine ⟨fs, ?_, hmem, save_data_ok render fs dataDir f ticker hmem⟩
    simp [processor_init, mkdir_exist_ok, hmem]
  · refine ⟨⟨dataDir :: fs.dirs, fs.files⟩, ?_, List.mem_cons_self _ _,
      save_data_ok render ⟨dataDir :: fs.dirs, fs.files⟩ dataDir f ticker
        (List.mem_cons_self _ _)⟩
    simp [processor_init, mkdir_exist_ok, hmem, hp]

/-- C8 witness: creating `stock_data` directly under the root and saving
into it. -/
theorem mkdir_then_save_succeeds_witness :
    ∃ fs2, processor_init fs0 ["stock_data"] = .ok fs2 ∧
      ["stock_data"] ∈ fs2.dirs ∧
      ∃ fs3,
        (save_data renderConst fs2 ["stock_data"] ⟨[], none⟩ "AAPL").1 =
          .ok fs3 ∧
        (["stock_data"] ++ ["AAPL" ++ "_stock_data.csv"],
          to_csv renderConst ⟨[], none⟩) ∈ fs3.files :=
  mkdir_then_save_succeeds fs0 ["stock_data"] renderConst ⟨[], none⟩ "AAPL"
    (by decide)

/-! ## The save/parse round trip (claim C9) -/

/-- `splitSep` always yields at least one field. -/
theorem splitSep_ne_nil (sep : Char) (s : List Char) : splitSep sep s ≠ [] := by
  induction s with
  | nil => simp [splitSep]
  | cons c cs ih =>
    simp only [splitSep]
    rcases h : splitSep sep cs with _ | ⟨f, fs⟩
    · exact absurd h ih
    · by_cases hc : c = sep <;> simp [hc]

/-- Splitting after a leading separator yields a leading empty field. -/
theorem splitSep_cons_self (sep : Char) (s : List Char) :
    splitSep sep (sep :: s) = [] :: splitSep sep s := by
  simp only [splitSep]
  rcases h : splitSep sep s with _ | ⟨f, fs⟩
  · exact absurd h (splitSep_ne_nil sep s)
  · simp

/-- A separator-free prefix extends the first field of a split. -/
theorem splitSep_append_left (sep : Char) :
    ∀ f : List Char, sep ∉ f → ∀ s g gs, splitSep sep s = g :: gs →
      splitSep sep (f ++ s) = (f ++ g) :: gs := by
  intro f
  induction f with
  | nil => intro _ s g gs h; simpa using h
  | cons c f2 ih =>
    intro hf s g gs h
    have hc : c ≠ sep := fun e => hf (by simp [e])
    have hf2 : sep ∉ f2 := fun hm => hf (List.mem_cons_of_mem _ hm)
    have h2 := ih hf2 s g gs h
    simp only [List.cons_append, splitSep, List.append_eq]
    rw [h2]
    simp [hc]

/-- Splitting undoes joining when no field contains the separator. -/
theorem splitSep_joinSep (sep : Char) :
    ∀ fields : List (List Char), fields ≠ [] → (∀ f ∈ fields, sep ∉ f) →
      splitSep sep (joinSep sep fields) = fields := by
  intro fields
  induction fields with
  | nil => intro h _; cases h rfl
  | cons f fs ih =>
    intro _ hmem
    cases fs with
    | nil =>
      have hf : sep ∉ f := hmem f (by simp)
      have h0 : splitSep sep ([] : List Char) = [[]] := rfl
      have := splitSep_append_left sep f hf [] [] [] h0
      simpa [joinSep] using this
    | cons g gs =>
      have hf : sep ∉ f := hmem f (by simp)
      have hrest : splitSep sep (joinSep sep (g :: gs)) = g :: gs :=
        ih (by simp) (fun x hx => hmem x (List.mem_cons_of_mem _ hx))
      have hsep : splitSep sep (sep :: joinSep sep (g :: gs)) = [] :: g :: gs := by
        rw [splitSep_cons_self, hrest]
      have := splitSep_append_left sep f hf
        (sep :: joinSep sep (g :: gs)) [] (g :: gs) hsep
      simpa [joinSep] using this

/-- A character different from the separator and absent from every field is
absent from the join. -/
theorem not_mem_joinSep (sep c : Char) (hc : c ≠ sep) :
    ∀ fields : List (List Char), (∀ f ∈ fields, c ∉ f) →
      c ∉ joinSep sep fields := by
  intro fields
  induction fields with
  | nil => intro _; simp [joinSep]
  | cons f fs ih =>
    intro hmem
    cases fs with
    | nil => simpa [joinSep] using hmem f (by simp)
    | cons g gs =>
      have h1 : c ∉ f := hmem f (by simp)
      have h2 : c ∉ joinSep sep (g :: gs) :=
        ih (fun x hx => hmem x (List.mem_cons_of_mem _ hx))
      simp only [joinSep, List.mem_append, List.mem_cons]
      rintro (h | h | h)
      · exact h1 h
      · exact hc h
      · exact h2 h

/-- Header fields are free of separators. -/
theorem headerFields_clean (f : Frame) :
    ∀ fld ∈ headerFields f, ',' ∉ fld ∧ '\n' ∉ fld := by
  rcases f with ⟨rows, tgt⟩
  cases tgt <;> intro fld hfld <;> simp [headerFields] at hfld
  · rcases hfld with rfl | rfl | rfl | rfl | rfl | rfl <;>
      exact ⟨by decide, by decide⟩
  · rcases hfld with rfl | rfl | rfl | rfl | rfl | rfl | rfl <;>
      exact ⟨by decide, by decide⟩

/-- The header row is never empty. -/
theorem headerFields_ne_nil (f : Frame) : headerFields f ≠ [] := by
  rcases f with ⟨rows, tgt⟩
  cases tgt <;> simp [headerFields]

/-- Data-row fields are free of separators when the renderer and the date
are. -/
theorem rowFields_clean (render : ℚ → List Char) (tgt : Option ℚ)
    (r : HistRow) (hr : ∀ q, ',' ∉ render q ∧ '\n' ∉ render q)
    (hd : ',' ∉ r.date ∧ '\n' ∉ r.date) :
    ∀ fld ∈ rowFields render tgt r, ',' ∉ fld ∧ '\n' ∉ fld := by
  intro fld hfld
  cases tgt with
  | none =>
    simp [rowFields] at hfld
    rcases hfld with rfl | rfl | rfl | rfl | rfl | rfl
    · exact hd
    all_goals exact hr _
  | some t =>
    simp [rowFields] at hfld
    rcases hfld with rfl | rfl | rfl | rfl | rfl | rfl | rfl
    · exact hd
    all_goals exact hr _

/-- A data row is never empty (it leads with the date). -/
theorem rowFields_ne_nil (render : ℚ → List Char) (tgt : Option ℚ)
    (r : HistRow) : rowFields render tgt r ≠ [] := by
  cases tgt <;> simp [rowFields]

/-- Every field of the serialized table is free of both separators. -/
theorem csvTable_fields_clean (render : ℚ → List Char) (f : Frame)
    (hr : ∀ q, ',' ∉ render q ∧ '\n' ∉ render q)
    (hd : ∀ r ∈ f.rows, ',' ∉ r.date ∧ '\n' ∉ r.date) :
    ∀ fields ∈ csvTable render f, ∀ fld ∈ fields, ',' ∉ fld ∧ '\n' ∉ fld := by
  intro fields hfields
  simp only [csvTable, List.mem_cons, List.mem_map] at hfields
  rcases hfields with rfl | ⟨r, hrmem, rfl⟩
  · exact headerFields_clean f
  · exact rowFields_clean render f.analystTarget r hr (hd r hrmem)

/-- No row of the serialized table is empty. -/
theorem csvTable_rows_ne_nil (render : ℚ → List Char) (f : Frame) :
    ∀ fields ∈ csvTable render f, fields ≠ [] := by
  intro fields hfields
  simp only [csvTable, List.mem_cons, List.mem_map] at hfields
  rcases hfields with rfl | ⟨r, _, rfl⟩
  · exact headerFields_ne_nil f
  · exact rowFields_ne_nil render f.analystTarget r

/-- C9: parsing the file `save` writes recovers the serialized table — the
header and, per observation, the rendered fields of the input series — and
the leading column of the data rows is exactly the original dates in their
original order.  The hypotheses say the renderer's output and the dates
avoid the two separator characters, as pandas' formatting does. -/
theorem save_roundtrip (render : ℚ → List Char) (f : Frame)
    (hr : ∀ q, ',' ∉ render q ∧ '\n' ∉ render q)
    (hd : ∀ r ∈ f.rows, ',' ∉ r.date ∧ '\n' ∉ r.date) :
    parse_csv (to_csv render f) = csvTable render f ∧
    (parse_csv (to_csv render f)).tail.map List.headI =
      f.rows.map HistRow.date := by
  have hclean := csvTable_fields_clean render f hr hd
  have hne := csvTable_rows_ne_nil render f
  have hA : splitSep '\n' (joinSep '\n' ((csvTable render f).map (joinSep ','))) =
      (csvTable render f).map (joinSep ',') := by
    apply splitSep_joinSep
    · simp [csvTable]
    · intro line hline
      obtain ⟨fields, hfmem, rfl⟩ := List.mem_map.mp hline
      exact not_mem_joinSep ',' '\n' (by decide) fields
        (fun fld hfld => (hclean fields hfmem fld hfld).2)
  have hmain : parse_csv (to_csv render f) = csvTable render f := by
    unfold parse_csv to_csv
    rw [hA, List.map_map]
    have hcongr : ∀ fields ∈ csvTable render f,
        (splitSep ',' ∘ joinSep ',') fields = id fields := by
      intro fields hfmem
      simp only [Function.comp_apply, id_eq]
      exact splitSep_joinSep ',' fields (hne fields hfmem)
        (fun fld hfld => (hclean fields hfmem fld hfld).1)
    rw [List.map_congr_left hcongr, List.map_id]
  refine ⟨hmain, ?_⟩
  rw [hmain]
  simp only [csvTable, List.tail_cons, List.map_map]
  apply List.map_congr_left
  intro r hmem
  cases f.analystTarget <;> simp [rowFields]

/-- C9 witness: the round trip at a concrete one-row frame and renderer. -/
theorem save_roundtrip_witness :
    parse_csv (to_csv renderConst frame1) = csvTable renderConst frame1 ∧
    (parse_csv (to_csv renderConst frame1)).tail.map List.headI =
      frame1.rows.map HistRow.date :=
  save_roundtrip renderConst frame1
    (fun q => ⟨by simp [renderConst], by simp [renderConst]⟩) (by decide)
